import Mathlib

/-!
Shallow embedding of the stock reconciliation core of the
`suiviventeefamiasafaatsaraina` sales-tracking application.

Conventions of the embedding:
* TypeScript `number` fields holding counts, quantities and stock levels
  are modelled as `Int` (JavaScript numbers behave as exact integers on
  this data).
* Timestamps (`Date` objects, values produced by `parseISO`) are modelled
  as `Int` milliseconds since the epoch; `date-fns` comparators
  `isBefore`, `isAfter`, `isEqual` become `<`, `>`, `=` on these integers,
  and `endOfDay` becomes the last millisecond of the enclosing UTC
  calendar day.
* The optional `initialStockDate : string` field is modelled as the
  parsed timestamp, `Option Int`: `none` is the absent / falsy string.
* `quantitySold?: number` is modelled as `Option Int`; the JavaScript
  idiom `product.quantitySold || 0` becomes `Option.getD · 0` (both map
  an absent value, and the falsy value `0`, to `0`).
* `product.initialStock || fallback` tests JavaScript truthiness of a
  number, i.e. whether `initialStock ≠ 0`.
-/

/-- A sale ledger entry (`RegisterSale` in `src/types`), restricted to the
fields the stock computations read. -/
structure RegisterSale where
  product : String
  category : String
  date : Int
  quantity : Int
  price : Int
  deriving Repr, DecidableEq

/-- A product record (`Product` in `src/types`), restricted to the fields
the stock computations and statistics read. -/
structure Product where
  name : String
  category : String
  price : Int
  initialStock : Int
  initialStockDate : Option Int
  stock : Int
  minStock : Int
  quantitySold : Option Int
  deriving Repr, DecidableEq

/-- JavaScript `String.prototype.toLowerCase` on the character sequence
(the sources only rely on its ASCII behaviour, `Char.toLower`). -/
def jsToLower (s : String) : String := String.mk (s.data.map Char.toLower)

/-- JavaScript `String.prototype.trim`: drop leading and trailing
whitespace. -/
def jsTrim (s : String) : String :=
  String.mk (((s.data.dropWhile Char.isWhitespace).reverse.dropWhile Char.isWhitespace).reverse)

/-- The normalized-equality match used by every stock computation:
`sale.product.toLowerCase().trim() === product.name.toLowerCase().trim()`
and likewise for the category fields. -/
def matchesProduct (sale : RegisterSale) (p : Product) : Bool :=
  (jsTrim (jsToLower sale.product) == jsTrim (jsToLower p.name)) &&
  (jsTrim (jsToLower sale.category) == jsTrim (jsToLower p.category))

/-- The running total `reduce((sum, sale) => sum + sale.quantity, 0)`. -/
def sumQuantities (sales : List RegisterSale) : Int :=
  sales.foldl (fun sum sale => sum + sale.quantity) 0

/-- Function `calculateStockFinal` from `src/unnamed/part_003`: if no initial stock
date is set the function returns `product.initialStock` unchanged;
otherwise it subtracts the quantities of matched sales dated on or after
the initial stock date (`isAfter(sale.date, d) || isEqual(sale.date, d)`)
and clamps at zero. -/
def calculateStockFinal (p : Product) (sales : List RegisterSale) : Int :=
  match p.initialStockDate with
  | none => p.initialStock
  | some initialStockDate =>
    let relevantSales := sales.filter (fun sale =>
      matchesProduct sale p &&
      (decide (initialStockDate < sale.date) || decide (sale.date = initialStockDate)))
    let totalSoldAfterInitialDate := sumQuantities relevantSales
    max 0 (p.initialStock - totalSoldAfterInitialDate)

/-- Function `hasEarlySales` from `src/unnamed/part_003`: true when an initial
stock date is set and some matched sale is dated strictly before it. -/
def hasEarlySales (p : Product) (sales : List RegisterSale) : Bool :=
  match p.initialStockDate with
  | none => false
  | some initialStockDate =>
    sales.any (fun sale =>
      matchesProduct sale p && decide (sale.date < initialStockDate))

/-- Milliseconds in a calendar day. -/
def dayMs : Int := 86400000

/-- The `date-fns` helper `endOfDay`: the final millisecond (23:59:59.999) of the
calendar day containing `t`. -/
def endOfDay (t : Int) : Int := dayMs * (t.ediv dayMs) + (dayMs - 1)

/-- Two timestamps fall on the same calendar day. -/
def sameDay (s t : Int) : Prop := s.ediv dayMs = t.ediv dayMs

instance (s t : Int) : Decidable (sameDay s t) := by
  unfold sameDay; infer_instance

/-- Result record of `calculateHistoricalStock`. -/
structure HistoricalStockResult where
  historicalStock : Int
  quantitySoldUpToDate : Int
  isHistoricalView : Bool
  deriving Repr, DecidableEq

/-- The filter predicate `calculateHistoricalStock` applies to the ledger:
`(isBefore(saleDate, endOfTargetDate) || saleDate.getTime() ===
endOfTargetDate.getTime()) && matches name && matches category`. -/
def includedUpTo (p : Product) (targetDate : Int) (sale : RegisterSale) : Bool :=
  (decide (sale.date < endOfDay targetDate) || decide (sale.date = endOfDay targetDate)) &&
  matchesProduct sale p

/-- Function `calculateHistoricalStock` from
`src/client/src/components/stock/StockFilters.tsx` (the ledger
`registerSales`, a closure variable in the source, is passed explicitly).
With no target date it returns the stored denormalized fields; with a
target date it sums matched sales up to the end of the target day and
subtracts from `product.initialStock || product.stock +
(product.quantitySold || 0)`, clamping at zero. -/
def calculateHistoricalStock (p : Product) (targetDate : Option Int)
    (registerSales : List RegisterSale) : HistoricalStockResult :=
  match targetDate with
  | none =>
    { historicalStock := p.stock
      quantitySoldUpToDate := p.quantitySold.getD 0
      isHistoricalView := false }
  | some targetDate =>
    let salesUpToDate := registerSales.filter (includedUpTo p targetDate)
    let quantitySoldUpToDate := sumQuantities salesUpToDate
    let initialStock :=
      if p.initialStock ≠ 0 then p.initialStock
      else p.stock + p.quantitySold.getD 0
    { historicalStock := max 0 (initialStock - quantitySoldUpToDate)
      quantitySoldUpToDate := quantitySoldUpToDate
      isHistoricalView := true }

/-- One entry of the category breakdown computed by `useStockStatistics`. -/
structure CategoryCount where
  category : String
  count : Int
  stock : Int
  sold : Int
  revenue : Int
  deriving Repr, DecidableEq

/-- The stock-level breakdown computed by `useStockStatistics`. -/
structure StockLevels where
  outOfStock : Int
  lowStock : Int
  healthy : Int
  deriving Repr, DecidableEq

/-- The record returned by `useStockStatistics`. -/
structure Statistics where
  totalProducts : Int
  totalStock : Int
  totalSold : Int
  outOfStock : Int
  lowStock : Int
  totalRevenue : Int
  categoryCounts : List CategoryCount
  stockLevels : StockLevels
  deriving Repr, DecidableEq

/-- The deduplication `[...new Set(list)]`: keeps the first occurrence of
each element, in encounter order. -/
def uniqueInOrder (l : List String) : List String :=
  l.foldl (fun acc x => if x ∈ acc then acc else acc ++ [x]) []

/-- Stable insertion of one element into a list already sorted descending
by `count` (the element lands after every earlier element with an equal
count, as the stable `sort((a, b) => b.count - a.count)` requires). -/
def insertByCountDesc (c : CategoryCount) : List CategoryCount → List CategoryCount
  | [] => [c]
  | x :: xs => if x.count < c.count then c :: x :: xs else x :: insertByCountDesc c xs

/-- The stable descending-by-count sort `sort((a, b) => b.count - a.count)`
applied to the category breakdown. -/
def sortByCountDesc (l : List CategoryCount) : List CategoryCount :=
  l.foldl (fun acc c => insertByCountDesc c acc) []

/-- Hook `useStockStatistics` from
`src/client/src/hooks/useStockStatistics.ts` (the memoization wrapper is
identity on the computed value; the `products` argument is received but
the statistics are computed from `filteredProducts` alone). -/
def useStockStatistics (products filteredProducts : List Product) : Statistics :=
  let totalProducts : Int := filteredProducts.length
  let totalStock := filteredProducts.foldl (fun sum p => sum + p.stock) 0
  let totalSold := filteredProducts.foldl (fun sum p => sum + p.quantitySold.getD 0) 0
  let outOfStock : Int := (filteredProducts.filter (fun p => p.stock == 0)).length
  let lowStock : Int := (filteredProducts.filter (fun p =>
    decide (0 < p.stock) && decide (p.stock ≤ p.minStock))).length
  let totalRevenue := filteredProducts.foldl (fun sum p => sum + p.quantitySold.getD 0 * p.price) 0
  let categories := uniqueInOrder (filteredProducts.map (fun p => p.category))
  let categoryCounts := sortByCountDesc (categories.map (fun category =>
    let productsInCategory := filteredProducts.filter (fun p => p.category == category)
    { category := category
      count := (productsInCategory.length : Int)
      stock := productsInCategory.foldl (fun sum p => sum + p.stock) 0
      sold := productsInCategory.foldl (fun sum p => sum + p.quantitySold.getD 0) 0
      revenue := productsInCategory.foldl (fun sum p => sum + p.quantitySold.getD 0 * p.price) 0 }))
  { totalProducts := totalProducts
    totalStock := totalStock
    totalSold := totalSold
    outOfStock := outOfStock
    lowStock := lowStock
    totalRevenue := totalRevenue
    categoryCounts := categoryCounts
    stockLevels :=
      { outOfStock := outOfStock
        lowStock := lowStock
        healthy := totalProducts - outOfStock - lowStock } }

/-! ## Helper lemmas -/

/-- Splitting a weak inequality into the strict/equal disjunction, at the
level of the `Bool` tests the filters use. -/
lemma upToBound_eq (e x : Int) : (decide (x < e) || decide (x = e)) = decide (x ≤ e) := by
  rw [Bool.eq_iff_iff]
  simp only [Bool.or_eq_true, decide_eq_true_eq]
  omega

/-- The on-or-after test `isAfter(sale.date, d) || isEqual(sale.date, d)`
is the weak inequality `d ≤ sale.date`. -/
lemma onOrAfter_eq (d x : Int) : (decide (d < x) || decide (x = d)) = decide (d ≤ x) := by
  rw [Bool.eq_iff_iff]
  simp only [Bool.or_eq_true, decide_eq_true_eq]
  omega

/-- A timestamp on the same calendar day as `t` is at most `endOfDay t`. -/
lemma le_endOfDay_of_sameDay {s t : Int} (h : sameDay s t) : s ≤ endOfDay t := by
  simp only [sameDay, dayMs] at h
  simp only [endOfDay, dayMs]
  have h1 : 86400000 * (s.ediv 86400000) + s.emod 86400000 = s := Int.ediv_add_emod s 86400000
  have h2 : s.emod 86400000 < 86400000 := Int.emod_lt_of_pos s (by norm_num)
  omega

/-- The ledger filter of `calculateHistoricalStock` keeps exactly the
matched sales dated at most `endOfDay targetDate`. -/
lemma includedUpTo_eq (p : Product) (t : Int) (s : RegisterSale) :
    includedUpTo p t s = (matchesProduct s p && decide (s.date ≤ endOfDay t)) := by
  unfold includedUpTo
  rw [upToBound_eq, Bool.and_comm]

/-! ## Concrete records used by counterexamples and witnesses -/

/-- A matched sale of three units at timestamp 0. -/
def cexSale : RegisterSale :=
  { product := "widget", category := "tools", date := 0, quantity := 3, price := 0 }

/-- A product without an initial stock date. -/
def cexProductNoDate : Product :=
  { name := "widget", category := "tools", price := 0, initialStock := 10,
    initialStockDate := none, stock := 10, minStock := 0, quantitySold := none }

/-- A product whose initial stock date is timestamp 0. -/
def cexProductWithDate : Product :=
  { name := "widget", category := "tools", price := 0, initialStock := 10,
    initialStockDate := some 0, stock := 10, minStock := 0, quantitySold := none }

/-- A product with an initial stock date but a zero (JavaScript-falsy)
`initialStock`, and nonzero denormalized `stock` and `quantitySold`. -/
def cexProductZeroInitial : Product :=
  { name := "a", category := "b", price := 0, initialStock := 0,
    initialStockDate := some 0, stock := 5, minStock := 0, quantitySold := some 3 }

/-! ## Claims -/

/-- C1, counterexample: for a product without `initialStockDate` and a
matched sale of quantity 3, `calculateStockFinal` returns the full
`initialStock` (10), not `max(0, initialStock − Σ matched)` (7): the
claimed subtraction of matched sales does not happen on this branch. -/
theorem calculateStockFinal_noDate_claim_cex : cexProductNoDate.initialStockDate = none ∧
    calculateStockFinal cexProductNoDate [cexSale] ≠
      max 0 (cexProductNoDate.initialStock -
        sumQuantities (List.filter (fun s => matchesProduct s cexProductNoDate) [cexSale])) := by
  constructor
  · rfl
  · decide

/-- C1, amended: for every product whose `initialStockDate` is absent and
every sales ledger, `calculateStockFinal` returns `product.initialStock`
unchanged — no matched sales are subtracted and no clamping occurs. -/
theorem calculateStockFinal_noDate_returns_initialStock (p : Product)
    (sales : List RegisterSale) (h : p.initialStockDate = none) :
    calculateStockFinal p sales = p.initialStock := by
  simp [calculateStockFinal, h]

/-- Witness for `calculateStockFinal_noDate_returns_initialStock` at a
concrete product and one-sale ledger. -/
theorem calculateStockFinal_noDate_returns_initialStock_w :
    calculateStockFinal cexProductNoDate [cexSale] = cexProductNoDate.initialStock :=
  calculateStockFinal_noDate_returns_initialStock cexProductNoDate [cexSale] rfl

/-- C2, counterexample: a product with `initialStockDate` set but
`initialStock = 0`, `stock = 5`, `quantitySold = 3`: the claim predicts
historical stock `max(0, initialStock − 0) = 0`, but the code picks its
baseline by JavaScript truthiness of `initialStock` (`initialStock ||
stock + quantitySold`), so it returns `max(0, (5 + 3) − 0) = 8`. -/
theorem calculateHistoricalStock_baseline_claim_cex :
    cexProductZeroInitial.initialStockDate = some 0 ∧
    (calculateHistoricalStock cexProductZeroInitial (some 0) []).historicalStock ≠
      max 0 (cexProductZeroInitial.initialStock -
        (calculateHistoricalStock cexProductZeroInitial (some 0) []).quantitySoldUpToDate) := by
  constructor
  · rfl
  · decide

/-- C2, amended: for every product, target date and ledger, the historical
baseline is `product.initialStock` when that value is nonzero (truthy) and
`product.stock + (product.quantitySold or 0)` otherwise — regardless of
whether `initialStockDate` is set — and the historical stock is `max(0,
baseline − quantitySoldUpToDate)`. -/
theorem calculateHistoricalStock_baseline_truthiness (p : Product) (t : Int)
    (sales : List RegisterSale) :
    (calculateHistoricalStock p (some t) sales).historicalStock =
      max 0 ((if p.initialStock = 0 then p.stock + p.quantitySold.getD 0 else p.initialStock) -
        (calculateHistoricalStock p (some t) sales).quantitySoldUpToDate) := by
  by_cases h : p.initialStock = 0 <;> simp [calculateHistoricalStock, h]

/-- C3: with a target date, `calculateHistoricalStock` sums exactly the
matched sales dated at most the end of the target calendar day; a matched
sale anywhere on that calendar day passes the ledger filter, and a sale
strictly after end-of-day fails it. -/
theorem calculateHistoricalStock_sums_salesUpToEndOfDay (p : Product)
    (sales : List RegisterSale) (t : Int) :
    (calculateHistoricalStock p (some t) sales).quantitySoldUpToDate =
      sumQuantities (sales.filter (fun s => matchesProduct s p && decide (s.date ≤ endOfDay t)))
    ∧ (∀ s : RegisterSale, matchesProduct s p = true → sameDay s.date t →
        includedUpTo p t s = true)
    ∧ (∀ s : RegisterSale, endOfDay t < s.date → includedUpTo p t s = false) := by
  refine ⟨?_, ?_, ?_⟩
  · simp only [calculateHistoricalStock]
    rw [List.filter_congr (fun s _ => includedUpTo_eq p t s)]
  · intro s hm hsd
    rw [includedUpTo_eq, hm]
    simp [le_endOfDay_of_sameDay hsd]
  · intro s h
    rw [includedUpTo_eq]
    have hd : decide (s.date ≤ endOfDay t) = false := decide_eq_false (by omega)
    simp [hd]

/-- Witness for `calculateHistoricalStock_sums_salesUpToEndOfDay` at a
concrete product, ledger, target date and same-day sale. -/
theorem calculateHistoricalStock_sums_salesUpToEndOfDay_w :
    (calculateHistoricalStock cexProductNoDate (some 0) [cexSale]).quantitySoldUpToDate =
      sumQuantities (List.filter
        (fun s => matchesProduct s cexProductNoDate && decide (s.date ≤ endOfDay 0)) [cexSale])
    ∧ includedUpTo cexProductNoDate 0 cexSale = true :=
  ⟨(calculateHistoricalStock_sums_salesUpToEndOfDay cexProductNoDate [cexSale] 0).1,
   (calculateHistoricalStock_sums_salesUpToEndOfDay cexProductNoDate [cexSale] 0).2.1
     cexSale (by decide) (by decide)⟩

/-- C4: for a product whose `initialStockDate` is set, `calculateStockFinal`
returns `max(0, initialStock − Σ {matched sales dated on or after the
date})`, and a matched sale dated exactly on the date is kept by the
filter (so it is included in the subtraction). -/
theorem calculateStockFinal_withDate_subtracts_onOrAfter (p : Product)
    (sales : List RegisterSale) (d : Int) (h : p.initialStockDate = some d) :
    calculateStockFinal p sales =
      max 0 (p.initialStock -
        sumQuantities (sales.filter (fun s => matchesProduct s p && decide (d ≤ s.date))))
    ∧ ∀ s ∈ sales, matchesProduct s p = true → s.date = d →
        s ∈ sales.filter (fun s => matchesProduct s p && decide (d ≤ s.date)) := by
  constructor
  · simp only [calculateStockFinal, h]
    rw [List.filter_congr (fun s _ => by rw [onOrAfter_eq])]
  · intro s hs hm hd
    rw [List.mem_filter]
    refine ⟨hs, ?_⟩
    rw [hm, hd]
    simp

/-- Witness for `calculateStockFinal_withDate_subtracts_onOrAfter` at a
concrete product whose initial stock date is timestamp 0. -/
theorem calculateStockFinal_withDate_subtracts_onOrAfter_w :
    calculateStockFinal cexProductWithDate [cexSale] =
      max 0 (cexProductWithDate.initialStock -
        sumQuantities (List.filter
          (fun s => matchesProduct s cexProductWithDate && decide ((0:Int) ≤ s.date)) [cexSale])) :=
  (calculateStockFinal_withDate_subtracts_onOrAfter cexProductWithDate [cexSale] 0 rfl).1

/-- C5: for a product whose `initialStockDate` is unset, the computed
current stock is `product.initialStock`, and the current (no-target-date)
quantity sold reported alongside is the denormalized
`product.quantitySold` total, not a time-bounded recomputation. -/
theorem calculateStockFinal_noDate_current_totals (p : Product)
    (sales : List RegisterSale) (h : p.initialStockDate = none) :
    calculateStockFinal p sales = p.initialStock ∧
    (calculateHistoricalStock p none sales).quantitySoldUpToDate = p.quantitySold.getD 0 :=
  ⟨by simp [calculateStockFinal, h], rfl⟩

/-- Witness for `calculateStockFinal_noDate_current_totals` at a concrete
product and one-sale ledger. -/
theorem calculateStockFinal_noDate_current_totals_w :
    calculateStockFinal cexProductNoDate [cexSale] = cexProductNoDate.initialStock ∧
    (calculateHistoricalStock cexProductNoDate none [cexSale]).quantitySoldUpToDate =
      cexProductNoDate.quantitySold.getD 0 :=
  calculateStockFinal_noDate_current_totals cexProductNoDate [cexSale] rfl

/-- C6: `hasEarlySales` is true exactly when the product has an
`initialStockDate` and some matched sale is dated strictly before it; in
particular a matched sale dated exactly on the date is never counted as
early. -/
theorem hasEarlySales_iff_matched_sale_before_date (p : Product)
    (sales : List RegisterSale) :
    hasEarlySales p sales = true ↔
      ∃ d, p.initialStockDate = some d ∧
        ∃ s ∈ sales, matchesProduct s p = true ∧ s.date < d := by
  cases hd : p.initialStockDate with
  | none => simp [hasEarlySales, hd]
  | some d =>
    simp only [hasEarlySales, hd, List.any_eq_true, Bool.and_eq_true, decide_eq_true_eq,
      Option.some.injEq]
    constructor
    · rintro ⟨s, hs, hm, hlt⟩
      exact ⟨d, rfl, s, hs, hm, hlt⟩
    · rintro ⟨d', hdd, s, hs, hm, hlt⟩
      exact ⟨s, hs, hm, by omega⟩

/-- A sale whose name and category only differ from `widgetProduct`'s by
case and surrounding whitespace. -/
def widgetSale : RegisterSale :=
  { product := " widget ", category := "TOOLS", date := 0, quantity := 1, price := 0 }

/-- The product the claim C7 scenario matches `widgetSale` against. -/
def widgetProduct : Product :=
  { name := "Widget", category := "Tools", price := 0, initialStock := 0,
    initialStockDate := none, stock := 0, minStock := 0, quantitySold := none }

/-- C7: a sale matches a product exactly when both the name/product fields
and the category fields are equal after lowercasing and trimming; in
particular the sale `(" widget ", "TOOLS")` matches the product
`("Widget", "Tools")`. -/
theorem matchesProduct_normalized_equality :
    (∀ (s : RegisterSale) (p : Product), matchesProduct s p = true ↔
      (jsTrim (jsToLower s.product) = jsTrim (jsToLower p.name) ∧
       jsTrim (jsToLower s.category) = jsTrim (jsToLower p.category)))
    ∧ matchesProduct widgetSale widgetProduct = true := by
  constructor
  · intro s p
    simp [matchesProduct]
  · decide

/-- C8: the stock computations are total functions of their inputs, and
for any product satisfying the data-model invariants `initialStock ≥ 0`
and `stock ≥ 0`, both the current stock of `calculateStockFinal` and the
stock of `calculateHistoricalStock` (with or without a target date) are
nonnegative: when sales exceed the baseline the result is clamped to 0. -/
theorem stock_computations_nonneg (p : Product) (sales : List RegisterSale)
    (asOf : Option Int) (h1 : 0 ≤ p.initialStock) (h2 : 0 ≤ p.stock) :
    0 ≤ calculateStockFinal p sales ∧
    0 ≤ (calculateHistoricalStock p asOf sales).historicalStock := by
  constructor
  · cases hd : p.initialStockDate with
    | none => simpa [calculateStockFinal, hd] using h1
    | some d =>
      simp only [calculateStockFinal, hd]
      exact le_max_left 0 _
  · cases asOf with
    | none => simpa [calculateHistoricalStock] using h2
    | some t =>
      simp only [calculateHistoricalStock]
      exact le_max_left 0 _

/-- Witness for `stock_computations_nonneg` at a concrete product, ledger
and target date. -/
theorem stock_computations_nonneg_w :
    (0:Int) ≤ cexProductNoDate.initialStock ∧ (0:Int) ≤ cexProductNoDate.stock ∧
    (0 ≤ calculateStockFinal cexProductNoDate [cexSale] ∧
     0 ≤ (calculateHistoricalStock cexProductNoDate (some 0) [cexSale]).historicalStock) :=
  ⟨by decide, by decide,
   stock_computations_nonneg cexProductNoDate [cexSale] (some 0) (by decide) (by decide)⟩

/-- C9: applied to an empty product list, `useStockStatistics` reports
zero for every numeric field, an empty category breakdown and an all-zero
stock-level breakdown. -/
theorem useStockStatistics_empty_all_zero (products : List Product) :
    useStockStatistics products [] =
      { totalProducts := 0, totalStock := 0, totalSold := 0, outOfStock := 0, lowStock := 0,
        totalRevenue := 0, categoryCounts := [],
        stockLevels := { outOfStock := 0, lowStock := 0, healthy := 0 } } := rfl

/-- C10: with no target date, `calculateHistoricalStock` returns exactly
the stored denormalized fields (`stock`, `quantitySold` defaulted to 0,
`isHistoricalView = false`), and the result is the same for any two
ledgers — the sales are never consulted. -/
theorem calculateHistoricalStock_noTarget_denormalized (p : Product)
    (sales sales2 : List RegisterSale) :
    calculateHistoricalStock p none sales =
      { historicalStock := p.stock, quantitySoldUpToDate := p.quantitySold.getD 0,
        isHistoricalView := false } ∧
    calculateHistoricalStock p none sales = calculateHistoricalStock p none sales2 :=
  ⟨rfl, rfl⟩
